import Mathlib

/-!
Shallow embedding of the mrext NFC service (`cmd/nfc/main.go`) and of the
`LaunchGame` HTTP handler (`cmd/remote/games/launchers.go`).

Conventions of the embedding:
* All times are natural numbers counting milliseconds, so `time.Since(t) > d`
  becomes `d < now - t` (truncated subtraction; the Go monotonic clock never
  runs backwards, so `now ≥ t` on every real execution).
* The libnfc calls (`InitiatorPollTarget`, `getCardUID`, `getCardType`,
  `readNtag`, `readMifare`) are device I/O; one poll-loop tick receives their
  outcomes as an explicit environment record `PollEnv`, and `pollDevice`
  reproduces the control flow of the Go function on those outcomes.
* External effects of a tick (success/fail sound invocations, the last-scan
  file write, the launch dispatch) are recorded in a `TickEffects` record.
* Fallible Go functions returning `(T, error)` become `Except`.
-/

namespace Nfc

/-- Card type tags. Modelled from the spec: `card_type ∈ {Mifare, NTAG,
Unknown}` (the Go string constants `TypeNTAG`/`TypeMifare` are defined in the
repository's card-codec file, which is not part of the two source files;
`Unknown` stands for the zero/other value). -/
inductive CardType
  | NTAG
  | Mifare
  | Unknown
deriving DecidableEq, Repr

/-- The `Card` struct of `cmd/nfc/main.go` (`CardType`, `UID`, `Text`,
`ScanTime`); `scanTime` is a millisecond instant. -/
structure Card where
  cardType : CardType
  uid : String
  text : String
  scanTime : Nat
deriving DecidableEq, Repr

/-- The Go zero value `Card{}`, denoting "no card present". -/
def Card.empty : Card := ⟨CardType.Unknown, "", "", 0⟩

/-- `connectMaxTries = 10` from the const block of `cmd/nfc/main.go`. -/
def connectMaxTries : Nat := 10

/-- `timesToPoll = 20`. -/
def timesToPoll : Nat := 20

/-- `periodBetweenPolls = 300 * time.Millisecond`, in ms. -/
def periodBetweenPolls : Nat := 300

/-- `periodBetweenLoop = 300 * time.Millisecond`, in ms. -/
def periodBetweenLoop : Nat := 300

/-- `timeToForgetCard = 5 * time.Second`, in ms. -/
def timeToForgetCard : Nat := 5000

/-- `1 * time.Second` (the fail-sound rate limit), in ms. -/
def oneSecond : Nat := 1000

/-- Scan for the NDEF TLV tag byte `0x03` and return the bytes after it. -/
def dropToTLV : List Nat → Option (List Nat)
  | [] => none
  | b :: rest => if b = 0x03 then some rest else dropToTLV rest

/-- Skip the TLV length field: one byte, or `0xFF hi lo` for long lengths. -/
def dropTLVLen : List Nat → Option (List Nat)
  | [] => none
  | 0xFF :: rest =>
    match rest with
    | _ :: _ :: r => some r
    | _ => none
  | _ :: rest => some rest

/-- Modelled from the spec: `ParseRecordText` (defined in the repository's
NDEF codec file, which is not one of the two source files). Locate the TLV
`0x03`, skip its length, require a well-known short Text record
(`0xD1 0x01 <plen> 'T'`), reject the UTF-16 status flag, strip the
language-code prefix (status low nibble = its length) and return the
remaining payload bytes as text. On any structural mismatch return the empty
string: a missing NDEF is not an error. -/
def ParseRecordText (bs : List Nat) : String :=
  match dropToTLV bs with
  | none => ""
  | some afterTlv =>
    match dropTLVLen afterTlv with
    | none => ""
    | some r =>
      match r with
      | 0xD1 :: 0x01 :: plen :: 0x54 :: status :: rest =>
        if 0x80 ≤ status then ""
        else
          let langLen := status % 16
          if plen < 1 + langLen then ""
          else String.mk (((rest.drop langLen).take (plen - 1 - langLen)).map Char.ofNat)
      | _ => ""

/-- Outcome kind of `pnd.InitiatorPollTarget`: no error, a timeout error
(`nfc.ETIMEOUT`, which `pollDevice` ignores), a fatal I/O error (`nfc.EIO`)
or any other error. -/
inductive PollErrKind
  | ok
  | etimeout
  | eio
  | other
deriving DecidableEq, Repr

/-- Error returned by `pollDevice`: the poll error itself (`eio` survives
`errors.Is(err, nfc.EIO)` in the loop; `other` does not) or the
`fmt.Errorf`-wrapped NTAG read error (which never matches `nfc.EIO`). -/
inductive PErr
  | eio
  | other
  | readErr
deriving DecidableEq, Repr

/-- Device-side outcomes consumed by one `pollDevice` call:
`pollErr`/`count` from `InitiatorPollTarget`, `targetUid` from
`getCardUID(target)` (may be `""` when the UID cannot be detected),
`targetType` from `getCardType(target)`, `ntagRead` the result of
`readNtag` (`none` = read error, `some bs` = the bytes read),
`mifareBytes`/`mifareErr` the result of `readMifare` (whose error is only
logged, the returned bytes are used regardless), and `now` the current
millisecond instant. -/
structure PollEnv where
  pollErr : PollErrKind
  count : Int
  targetUid : String
  targetType : CardType
  ntagRead : Option (List Nat)
  mifareBytes : List Nat
  mifareErr : Bool
  now : Nat
deriving DecidableEq, Repr

/-- `pollDevice` from `cmd/nfc/main.go` (lines 150-216): forward non-timeout
poll errors; on `count <= 0` forget the active card only after
`timeToForgetCard`; on the same UID return the active card unchanged;
otherwise read the tag (an NTAG read error aborts with an error, a Mifare
read error is only logged), decode the text and build the new card. -/
def pollDevice (env : PollEnv) (activeCard : Card) : Except PErr Card :=
  if env.pollErr = PollErrKind.eio then Except.error PErr.eio
  else if env.pollErr = PollErrKind.other then Except.error PErr.other
  else if env.count ≤ 0 then
    if activeCard.uid ≠ "" ∧ timeToForgetCard < env.now - activeCard.scanTime then
      Except.ok Card.empty
    else
      Except.ok activeCard
  else
    if env.targetUid = activeCard.uid then Except.ok activeCard
    else
      let recordE : Except PErr (List Nat) :=
        if env.targetType = CardType.NTAG then
          match env.ntagRead with
          | none => Except.error PErr.readErr
          | some bs => Except.ok bs
        else if env.targetType = CardType.Mifare then Except.ok env.mifareBytes
        else Except.ok []
      match recordE with
      | Except.error e => Except.error e
      | Except.ok record =>
        Except.ok ⟨env.targetType, env.targetUid, ParseRecordText record, env.now⟩

/-- The shared `ServiceState` of `cmd/nfc/main.go` restricted to the fields
the claims touch (`activeCard`, `lastScanned`, `stopService`,
`disableLauncher`); the database maps and load time are not needed. -/
structure ServiceState where
  activeCard : Card
  lastScanned : Card
  stopService : Bool
  disableLauncher : Bool
deriving DecidableEq, Repr

/-- `ServiceState.SetActiveCard`: store the card and, when its UID is
non-empty, mirror it into `lastScanned`. -/
def ServiceState.setActiveCard (s : ServiceState) (card : Card) : ServiceState :=
  ⟨card, if card.uid ≠ "" then card else s.lastScanned, s.stopService, s.disableLauncher⟩

/-- External effects recorded during one poll-loop tick: whether the
`playSuccess` sound effect fired, whether the `playFail` sound effect fired,
whether `writeScanResult` (the last-scan file write) was invoked, and
whether `launchCard` (the launch dispatch) was invoked. -/
structure TickEffects where
  playedSuccess : Bool
  playedFail : Bool
  wroteScan : Bool
  launched : Bool
deriving DecidableEq, Repr

/-- No effect fired. -/
def noEffects : TickEffects := ⟨false, false, false, false⟩

/-- Control outcome of one tick of the poll goroutine: fall through to the
`end:` label and sleep (`ended`), `goto reconnect` (`reconnect`), or `break`
out of the loop (`stopped`). -/
inductive TickOut
  | ended
  | reconnect
  | stopped
deriving DecidableEq, Repr

/-- Result of one tick: the updated shared state, the updated goroutine-local
`lastError` instant, the external effects, and the control outcome. -/
structure TickResult where
  state : ServiceState
  lastError : Nat
  effects : TickEffects
  out : TickOut
deriving DecidableEq, Repr

/-- One iteration of the poll loop in `startService` (lines 378-431 of
`cmd/nfc/main.go`). `ds` is `cfg.Nfc.DisableSounds` (checked inside
`playSuccess`/`playFail`), `lastError` the goroutine-local rate-limit
instant, `lerr` whether `launchCard` returns an error. Faithful points:
`playSuccess` and `writeScanResult` run before the `IsLauncherDisabled`
check; the EIO path does not update `lastError`; `SetActiveCard` runs before
the new-arrival test, which compares against the activeCard read at the top
of the tick. -/
def loopTick (ds : Bool) (st : ServiceState) (lastError : Nat) (env : PollEnv)
    (lerr : Bool) : TickResult :=
  if st.stopService then ⟨st, lastError, noEffects, TickOut.stopped⟩
  else
    match pollDevice env st.activeCard with
    | Except.error e =>
      if e = PErr.eio then
        ⟨st, lastError, ⟨false, !ds && decide (oneSecond < env.now - lastError), false, false⟩,
          TickOut.reconnect⟩
      else
        ⟨st, env.now, ⟨false, !ds && decide (oneSecond < env.now - lastError), false, false⟩,
          TickOut.ended⟩
    | Except.ok newScanned =>
      if newScanned.uid = "" ∨ st.activeCard.uid = newScanned.uid then
        ⟨st.setActiveCard newScanned, lastError, noEffects, TickOut.ended⟩
      else if (st.setActiveCard newScanned).disableLauncher then
        ⟨st.setActiveCard newScanned, lastError, ⟨!ds, false, true, false⟩, TickOut.ended⟩
      else if lerr then
        ⟨st.setActiveCard newScanned, env.now,
          ⟨!ds, !ds && decide (oneSecond < env.now - lastError), true, true⟩, TickOut.ended⟩
      else
        ⟨st.setActiveCard newScanned, lastError, ⟨!ds, false, true, true⟩, TickOut.ended⟩

/-- Phase of the poll goroutine: at the `reconnect:` label about to open the
device, inside the polling loop, or returned (the goroutine has exited). -/
inductive LoopPhase
  | connecting
  | polling
  | exited
deriving DecidableEq, Repr

/-- One environment step for the poll goroutine: the outcome of an
`openDeviceWithRetries` + `InitiatorInit` attempt, or the inputs of one
polling iteration. -/
inductive LoopEnv
  | openStep (openOk : Bool) (initOk : Bool)
  | tickStep (env : PollEnv) (lerr : Bool)
deriving DecidableEq, Repr

/-- Whether a step is a failed device open or a failed initiator init. -/
def isFailedOpen : LoopEnv → Bool
  | LoopEnv.openStep a b => !a || !b
  | LoopEnv.tickStep _ _ => false

/-- Full state of the poll goroutine: its phase, the shared service state,
and the goroutine-local `lastError` instant. -/
structure LoopMachine where
  phase : LoopPhase
  st : ServiceState
  lastError : Nat
deriving DecidableEq, Repr

/-- One step of the poll goroutine of `startService` (lines 352-432).
At `connecting`, a failed `openDeviceWithRetries` or a failed
`InitiatorInit` makes the goroutine return (phase `exited`); on success the
loop is (re-)entered with `var lastError` freshly declared (zero). At
`polling`, one `loopTick` runs: `break` exits, `goto reconnect` goes back to
`connecting`, otherwise polling continues. `exited` is absorbing. -/
def loopStep (ds : Bool) (m : LoopMachine) (e : LoopEnv) : LoopMachine :=
  match m.phase, e with
  | LoopPhase.connecting, LoopEnv.openStep openOk initOk =>
    if openOk then
      if initOk then ⟨LoopPhase.polling, m.st, 0⟩
      else ⟨LoopPhase.exited, m.st, m.lastError⟩
    else ⟨LoopPhase.exited, m.st, m.lastError⟩
  | LoopPhase.polling, LoopEnv.tickStep env lerr =>
    let r := loopTick ds m.st m.lastError env lerr
    match r.out with
    | TickOut.stopped => ⟨LoopPhase.exited, r.state, r.lastError⟩
    | TickOut.reconnect => ⟨LoopPhase.connecting, r.state, r.lastError⟩
    | TickOut.ended => ⟨LoopPhase.polling, r.state, r.lastError⟩
  | _, _ => m

/-- Run the poll goroutine over a list of environment steps. -/
def runLoop (ds : Bool) (m : LoopMachine) (es : List LoopEnv) : LoopMachine :=
  es.foldl (loopStep ds) m

/-- Drop leading whitespace characters from a character list. -/
def dropWhitespaceLeft : List Char → List Char
  | [] => []
  | c :: cs => if c.isWhitespace then dropWhitespaceLeft cs else c :: cs

/-- `strings.TrimSpace`: strip leading and trailing whitespace. -/
def trimSpace (s : String) : String :=
  String.mk ((dropWhitespaceLeft (dropWhitespaceLeft s.data).reverse).reverse)

/-- One accepted control-socket connection (lines 452-506 of
`cmd/nfc/main.go`): trim the received bytes, then `status` formats
`fmt.Sprintf("%d,%s,%t,%s", lastScanned.ScanTime.Unix(), lastScanned.UID,
!IsLauncherDisabled(), lastScanned.Text)` when a card has been scanned and
`fmt.Sprintf("0,,%t,")` otherwise; `disable`/`enable` flip the launcher flag
and reply with the empty payload, as does any unknown command. `Unix()` is
modelled as the millisecond instant divided by 1000; `%t` prints
`true`/`false`. Returns the updated state and the written payload. -/
def handleConn (st : ServiceState) (raw : String) : ServiceState × String :=
  if trimSpace raw = "status" then
    if st.lastScanned.uid ≠ "" then
      (st, toString (st.lastScanned.scanTime / 1000) ++ "," ++ st.lastScanned.uid ++ ","
        ++ (if st.disableLauncher then "false" else "true") ++ "," ++ st.lastScanned.text)
    else
      (st, "0,," ++ (if st.disableLauncher then "false" else "true") ++ ",")
  else if trimSpace raw = "disable" then
    (⟨st.activeCard, st.lastScanned, st.stopService, true⟩, "")
  else if trimSpace raw = "enable" then
    (⟨st.activeCard, st.lastScanned, st.stopService, false⟩, "")
  else (st, "")

/-- Outcomes consumed by one run of `handleWriteCommand`:
`serviceRunning` = `svc.Running()` at entry, `stopOk` = `svc.Stop()`
succeeded, `stopObserved` = the service was observed stopped within the 15
100 ms polls, `openOk` = `openDeviceWithRetries` succeeded, `pollOk` =
`InitiatorPollTarget` returned no error, `count` its count, `targetType`
from `getCardType`, `writeOk` = the Mifare/NTAG write succeeded, and
`startOk` = the `svc.Start()` made inside the `restartService` closure
succeeded (relevant only when `serviceRunning`). -/
structure WriteEnv where
  serviceRunning : Bool
  stopOk : Bool
  stopObserved : Bool
  openOk : Bool
  pollOk : Bool
  count : Int
  targetType : CardType
  writeOk : Bool
  startOk : Bool
deriving DecidableEq, Repr

/-- The `restartService` closure of `handleWriteCommand` (lines 651-660)
followed by the exit that the calling path would perform: when the service
was running at entry the closure calls `svc.Start()`, and on its failure it
calls `os.Exit(1)` itself, pre-empting the caller's exit `code`; the second
component records that the closure was invoked. -/
def restartExit (env : WriteEnv) (code : Nat) : Nat × Bool :=
  if env.serviceRunning && !env.startOk then (1, true) else (code, true)

/-- `handleWriteCommand` from `cmd/nfc/main.go` (lines 626-744), returning
the process exit code and whether the `restartService` closure was invoked
before exiting. The two stop-phase failure paths (`svc.Stop()` error, and
the 15-try stop-wait timeout) call `os.Exit(1)` before `restartService`
exists; every later exit path runs `restartService()` first (modelled by
`restartExit`, whose own `svc.Start()` failure exits 1 even on the success
path, lines 653-658 and 740-743). -/
def handleWriteCommand (env : WriteEnv) : Nat × Bool :=
  if env.serviceRunning && !env.stopOk then (1, false)
  else if env.serviceRunning && !env.stopObserved then (1, false)
  else if !env.openOk then restartExit env 1
  else if !env.pollOk then restartExit env 1
  else if env.count = 0 then restartExit env 1
  else
    match env.targetType with
    | CardType.Mifare => if env.writeOk then restartExit env 0 else restartExit env 1
    | CardType.NTAG => if env.writeOk then restartExit env 0 else restartExit env 1
    | CardType.Unknown => restartExit env 1

/-- The retry loop of `openDeviceWithRetries` (lines 563-584): attempt
`nfc.Open`; on success return; otherwise return the current error once
`tries >= connectMaxTries`, else increment `tries` and loop. `attempt n`
gives the outcome of the `nfc.Open` call made with `tries = n`
(`Except.ok` = a device handle, `Except.error e` = the open error). -/
def openGo (attempt : Nat → Except String Unit) (tries : Nat) : Except String Nat :=
  match attempt tries with
  | Except.ok _ => Except.ok tries
  | Except.error e =>
    if connectMaxTries ≤ tries then Except.error e
    else openGo attempt (tries + 1)
termination_by connectMaxTries + 1 - tries
decreasing_by
  simp_wf
  omega

/-- `openDeviceWithRetries` starts the retry loop at `tries = 0`; on success
it returns the index of the successful attempt, on failure the last open
error. -/
def openDeviceWithRetries (attempt : Nat → Except String Unit) : Except String Nat :=
  openGo attempt 0

end Nfc

namespace Games

/-- A `games.System` restricted to the `Id` field read by the handler. -/
structure GSystem where
  id : String
deriving DecidableEq, Repr

/-- Result of one `LaunchGame` HTTP request: body decode failure (HTTP 400),
a runtime panic from evaluating `syss[0].Id` on an empty slice, the logged
no-system error reply (unreachable), a launch error (HTTP 500), or success. -/
inductive LaunchGameResult
  | decodeError
  | panicOutOfRange
  | noSystem (loggedId : String)
  | launchError (msg : String)
  | ok
deriving DecidableEq, Repr

/-- The `LaunchGame` handler body from `cmd/remote/games/launchers.go`
(lines 15-42). `folderToSystems` stands for `games.FolderToSystems` and
`launch` for `mister.LaunchGame` (repository functions outside the two
source files); `body` is the decoded `path` field (`none` = JSON decode
error). When `len(syss) == 0` the handler's logging statement evaluates
`syss[0].Id`, an out-of-bounds index on the empty slice, which panics: the
`noSystem` reply is never produced. -/
def LaunchGame (folderToSystems : String → List GSystem)
    (launch : GSystem → String → Except String Unit)
    (body : Option String) : LaunchGameResult :=
  match body with
  | none => LaunchGameResult.decodeError
  | some path =>
    match folderToSystems path with
    | [] => LaunchGameResult.panicOutOfRange
    | s :: _ =>
      match launch s path with
      | Except.error e => LaunchGameResult.launchError e
      | Except.ok _ => LaunchGameResult.ok

end Games

namespace Nfc

theorem setActiveCard_activeCard (s : ServiceState) (c : Card) :
    (s.setActiveCard c).activeCard = c := rfl

theorem setActiveCard_stopService (s : ServiceState) (c : Card) :
    (s.setActiveCard c).stopService = s.stopService := rfl

theorem setActiveCard_disableLauncher (s : ServiceState) (c : Card) :
    (s.setActiveCard c).disableLauncher = s.disableLauncher := rfl

theorem pollDevice_not_eio {env : PollEnv}
    (hok : env.pollErr = PollErrKind.ok ∨ env.pollErr = PollErrKind.etimeout) :
    env.pollErr ≠ PollErrKind.eio := by
  rcases hok with h | h <;> simp [h]

theorem pollDevice_not_other {env : PollEnv}
    (hok : env.pollErr = PollErrKind.ok ∨ env.pollErr = PollErrKind.etimeout) :
    env.pollErr ≠ PollErrKind.other := by
  rcases hok with h | h <;> simp [h]

/-- A successful poll that re-sees the active card's UID returns the active
card unchanged. -/
theorem pollDevice_sameUid (env : PollEnv) (c : Card)
    (hok : env.pollErr = PollErrKind.ok ∨ env.pollErr = PollErrKind.etimeout)
    (hc : 0 < env.count) (hu : env.targetUid = c.uid) :
    pollDevice env c = Except.ok c := by
  unfold pollDevice
  rw [if_neg (pollDevice_not_eio hok), if_neg (pollDevice_not_other hok),
    if_neg (by omega : ¬env.count ≤ 0), if_pos hu]

/-- An empty poll forgets the active card once it is stale. -/
theorem pollDevice_forget (env : PollEnv) (c : Card)
    (hok : env.pollErr = PollErrKind.ok ∨ env.pollErr = PollErrKind.etimeout)
    (hc : env.count ≤ 0) (hu : c.uid ≠ "")
    (ht : timeToForgetCard < env.now - c.scanTime) :
    pollDevice env c = Except.ok Card.empty := by
  unfold pollDevice
  rw [if_neg (pollDevice_not_eio hok), if_neg (pollDevice_not_other hok),
    if_pos hc, if_pos ⟨hu, ht⟩]

/-- An empty poll keeps the active card while it is fresh (or already empty). -/
theorem pollDevice_keep (env : PollEnv) (c : Card)
    (hok : env.pollErr = PollErrKind.ok ∨ env.pollErr = PollErrKind.etimeout)
    (hc : env.count ≤ 0)
    (ht : ¬(c.uid ≠ "" ∧ timeToForgetCard < env.now - c.scanTime)) :
    pollDevice env c = Except.ok c := by
  unfold pollDevice
  rw [if_neg (pollDevice_not_eio hok), if_neg (pollDevice_not_other hok),
    if_pos hc, if_neg ht]

/-- Inversion: a card returned by `pollDevice` is the unchanged active card,
the reset empty card, or a freshly built card for a new UID. -/
theorem pollDevice_ok_cases (env : PollEnv) (c nc : Card)
    (h : pollDevice env c = Except.ok nc) :
    nc = c ∨ nc = Card.empty
    ∨ (0 < env.count ∧ env.targetUid ≠ c.uid ∧ nc.uid = env.targetUid
      ∧ nc.cardType = env.targetType ∧ nc.scanTime = env.now) := by
  unfold pollDevice at h
  by_cases h1 : env.pollErr = PollErrKind.eio
  · rw [if_pos h1] at h
    exact absurd h (by simp)
  rw [if_neg h1] at h
  by_cases h2 : env.pollErr = PollErrKind.other
  · rw [if_pos h2] at h
    exact absurd h (by simp)
  rw [if_neg h2] at h
  by_cases h3 : env.count ≤ 0
  · rw [if_pos h3] at h
    by_cases h4 : c.uid ≠ "" ∧ timeToForgetCard < env.now - c.scanTime
    · rw [if_pos h4] at h
      exact Or.inr (Or.inl (Except.ok.inj h).symm)
    · rw [if_neg h4] at h
      exact Or.inl (Except.ok.inj h).symm
  · rw [if_neg h3] at h
    by_cases h5 : env.targetUid = c.uid
    · rw [if_pos h5] at h
      exact Or.inl (Except.ok.inj h).symm
    · rw [if_neg h5] at h
      refine Or.inr (Or.inr ⟨by omega, h5, ?_⟩)
      cases htt : env.targetType with
      | NTAG =>
        cases hnr : env.ntagRead with
        | none => simp [htt, hnr] at h
        | some bs =>
          simp [htt, hnr] at h
          refine ⟨?_, ?_, ?_⟩ <;> rw [← h]
      | Mifare =>
        simp [htt] at h
        refine ⟨?_, ?_, ?_⟩ <;> rw [← h]
      | Unknown =>
        simp [htt] at h
        refine ⟨?_, ?_, ?_⟩ <;> rw [← h]

/-- C3: on an empty poll (`count = 0`) with a non-empty active card,
`pollDevice` clears the active card exactly when more than
`timeToForgetCard` (5 s) has elapsed since its `ScanTime`, and returns it
unchanged (same UID) otherwise. -/
theorem C3_forget_card_iff (env : PollEnv) (c : Card)
    (hok : env.pollErr = PollErrKind.ok ∨ env.pollErr = PollErrKind.etimeout)
    (hcount : env.count ≤ 0) (huid : c.uid ≠ "") :
    (pollDevice env c = Except.ok Card.empty ↔ timeToForgetCard < env.now - c.scanTime)
    ∧ (env.now - c.scanTime ≤ timeToForgetCard → pollDevice env c = Except.ok c) := by
  by_cases ht : timeToForgetCard < env.now - c.scanTime
  · have hres := pollDevice_forget env c hok hcount huid ht
    exact ⟨⟨fun _ => ht, fun _ => hres⟩, fun hle => absurd ht (by omega)⟩
  · have hres := pollDevice_keep env c hok hcount (fun hc => ht hc.2)
    refine ⟨⟨fun he => ?_, fun h => absurd h ht⟩, fun _ => hres⟩
    rw [hres] at he
    have hce : c = Card.empty := Except.ok.inj he
    subst hce
    exact absurd rfl huid

/-- C3 witness: a poll 6 s after the scan clears the card; the same state
polled within 5 s would be kept. -/
theorem C3_witness :
    (pollDevice ⟨PollErrKind.ok, 0, "", CardType.Unknown, some [], [], false, 6000⟩
        ⟨CardType.NTAG, "aa", "t", 0⟩ = Except.ok Card.empty
      ↔ timeToForgetCard < 6000 - 0)
    ∧ (6000 - 0 ≤ timeToForgetCard →
      pollDevice ⟨PollErrKind.ok, 0, "", CardType.Unknown, some [], [], false, 6000⟩
        ⟨CardType.NTAG, "aa", "t", 0⟩
        = Except.ok ⟨CardType.NTAG, "aa", "t", 0⟩) :=
  C3_forget_card_iff _ _ (Or.inl rfl) (by decide) (by decide)

/-- C10: re-seeing the same UID does not refresh `ScanTime` (the active card
is returned unchanged), so a card continuously present for more than 5 s is
cleared by a single empty poll even though it was seen on the immediately
preceding poll. -/
theorem C10_scan_time_first_arrival (env1 env2 : PollEnv) (c : Card)
    (h1ok : env1.pollErr = PollErrKind.ok ∨ env1.pollErr = PollErrKind.etimeout)
    (h1c : 0 < env1.count) (hsame : env1.targetUid = c.uid)
    (h2ok : env2.pollErr = PollErrKind.ok ∨ env2.pollErr = PollErrKind.etimeout)
    (h2c : env2.count ≤ 0) (huid : c.uid ≠ "")
    (hold : timeToForgetCard < env2.now - c.scanTime) :
    pollDevice env1 c = Except.ok c ∧ pollDevice env2 c = Except.ok Card.empty :=
  ⟨pollDevice_sameUid env1 c h1ok h1c hsame,
    pollDevice_forget env2 c h2ok h2c huid hold⟩

/-- C10 witness: card first seen at t = 0 ms, re-seen at t = 5200 ms (scan
time not refreshed), cleared by the empty poll at t = 5400 ms. -/
theorem C10_witness :
    pollDevice ⟨PollErrKind.ok, 1, "aa", CardType.NTAG, some [], [], false, 5200⟩
        ⟨CardType.NTAG, "aa", "", 0⟩ = Except.ok ⟨CardType.NTAG, "aa", "", 0⟩
    ∧ pollDevice ⟨PollErrKind.ok, 0, "", CardType.Unknown, some [], [], false, 5400⟩
        ⟨CardType.NTAG, "aa", "", 0⟩ = Except.ok Card.empty :=
  C10_scan_time_first_arrival _ _ _ (Or.inl rfl) (by decide) rfl (Or.inl rfl)
    (by decide) (by decide) (by decide)

theorem openGo_fail_from (attempt : Nat → Except String Unit) (e : String)
    (hlast : attempt connectMaxTries = Except.error e)
    (hfail : ∀ n, n < connectMaxTries → ∃ er, attempt n = Except.error er) :
    ∀ k t, t + k = connectMaxTries → openGo attempt t = Except.error e := by
  intro k
  induction k with
  | zero =>
    intro t ht
    have heq : t = connectMaxTries := by omega
    subst heq
    unfold openGo
    rw [hlast]
    simp
  | succ k ih =>
    intro t ht
    obtain ⟨er, her⟩ := hfail t (by omega)
    unfold openGo
    rw [her]
    have hnle : ¬connectMaxTries ≤ t := by omega
    simp only [hnle, if_false, ite_false]
    exact ih (t + 1) (by omega)

/-- C8: when every open attempt fails, the retry loop of
`openDeviceWithRetries` stops after the initial attempt plus
`connectMaxTries` (10) retries and returns the error of the last attempt
(the one made with `tries = connectMaxTries`); moreover the result depends
only on the first `connectMaxTries + 1` attempts, so the loop never runs
beyond them. -/
theorem C8_open_retries_bounded (attempt : Nat → Except String Unit) (e : String)
    (hlast : attempt connectMaxTries = Except.error e)
    (hfail : ∀ n, n < connectMaxTries → ∃ er, attempt n = Except.error er) :
    openDeviceWithRetries attempt = Except.error e
    ∧ (∀ attempt2 : Nat → Except String Unit,
      (∀ n, n ≤ connectMaxTries → attempt2 n = attempt n) →
      openDeviceWithRetries attempt2 = Except.error e) := by
  constructor
  · exact openGo_fail_from attempt e hlast hfail connectMaxTries 0 (by omega)
  · intro attempt2 hagree
    have hlast2 : attempt2 connectMaxTries = Except.error e :=
      (hagree connectMaxTries (Nat.le_refl _)).trans hlast
    have hfail2 : ∀ n, n < connectMaxTries → ∃ er, attempt2 n = Except.error er :=
      fun n hn => (hfail n hn).imp fun er h => (hagree n (Nat.le_of_lt hn)).trans h
    exact openGo_fail_from attempt2 e hlast2 hfail2 connectMaxTries 0 (by omega)

/-- C8 witness: with every attempt failing with the same error, the loop
returns that error. -/
theorem C8_witness :
    openDeviceWithRetries (fun _ => Except.error "nope") = Except.error "nope" :=
  (C8_open_retries_bounded (fun _ => Except.error "nope") "nope" rfl
    (fun _ _ => ⟨"nope", rfl⟩)).1

/-- On a new arrival (poll returned a card with a fresh, non-empty UID) the
tick stores the card as both `activeCard` and `lastScanned`, invokes
`playSuccess` and `writeScanResult` unconditionally, and invokes
`launchCard` exactly when the launcher is not disabled. -/
theorem loopTick_stores (ds : Bool) (st : ServiceState) (le : Nat) (env : PollEnv)
    (lerr : Bool) (nc : Card)
    (hstop : st.stopService = false)
    (hpd : pollDevice env st.activeCard = Except.ok nc)
    (hu : nc.uid ≠ "") (hnew : nc.uid ≠ st.activeCard.uid) :
    (loopTick ds st le env lerr).state.activeCard = nc
    ∧ (loopTick ds st le env lerr).state.lastScanned = nc
    ∧ (loopTick ds st le env lerr).effects.playedSuccess = !ds
    ∧ (loopTick ds st le env lerr).effects.wroteScan = true
    ∧ (loopTick ds st le env lerr).effects.launched = !st.disableLauncher
    ∧ (loopTick ds st le env lerr).out = TickOut.ended := by
  have hnew' : ¬st.activeCard.uid = nc.uid := fun h => hnew h.symm
  by_cases hdis : st.disableLauncher <;> by_cases hl : lerr <;>
    simp [loopTick, hstop, hpd, hdis, hl, ServiceState.setActiveCard, hu, hnew']

/-- The `launchCard` dispatch fires only during a tick that sees a new,
non-empty UID while the launcher is enabled and the service not stopping. -/
theorem loopTick_launched (ds : Bool) (st : ServiceState) (le : Nat) (env : PollEnv)
    (lerr : Bool)
    (h : (loopTick ds st le env lerr).effects.launched = true) :
    st.stopService = false ∧ st.disableLauncher = false
    ∧ 0 < env.count ∧ env.targetUid ≠ "" ∧ env.targetUid ≠ st.activeCard.uid := by
  by_cases hstop : st.stopService
  · simp [loopTick, hstop, noEffects] at h
  cases hpd : pollDevice env st.activeCard with
  | error e =>
    by_cases he : e = PErr.eio <;> simp [loopTick, hstop, hpd, he] at h
  | ok nc =>
    by_cases hcond : nc.uid = "" ∨ st.activeCard.uid = nc.uid
    · simp [loopTick, hstop, hpd, hcond, noEffects] at h
    by_cases hdis : (st.setActiveCard nc).disableLauncher
    · simp [loopTick, hstop, hpd, hcond, hdis] at h
    push_neg at hcond
    rw [setActiveCard_disableLauncher] at hdis
    have hdis' : st.disableLauncher = false := by simpa using hdis
    have hstop' : st.stopService = false := by simpa using hstop
    rcases pollDevice_ok_cases env st.activeCard nc hpd with hc | hc | hc
    · exact absurd (show st.activeCard.uid = nc.uid by rw [hc]) hcond.2
    · exact absurd (show nc.uid = "" by rw [hc]; rfl) hcond.1
    · obtain ⟨hcnt, hne, huid, _, _⟩ := hc
      rw [huid] at hcond
      exact ⟨hstop', hdis', hcnt, hcond.1, hne⟩

/-- C1 counterexample: a new arrival (UID `"ab"`) during a tick with
`disableLauncher = true` updates `activeCard` and `lastScanned`, skips the
launch — but it does invoke `playSuccess` and does invoke `writeScanResult`,
contradicting the claim that no external effect occurs. -/
theorem C1_counterexample :
    (loopTick false ⟨Card.empty, Card.empty, false, true⟩ 0
        ⟨PollErrKind.ok, 1, "ab", CardType.Unknown, some [], [], false, 100⟩ false).effects
      = ⟨true, false, true, false⟩
    ∧ (loopTick false ⟨Card.empty, Card.empty, false, true⟩ 0
        ⟨PollErrKind.ok, 1, "ab", CardType.Unknown, some [], [], false, 100⟩ false).state
      = ⟨⟨CardType.Unknown, "ab", "", 100⟩, ⟨CardType.Unknown, "ab", "", 100⟩, false, true⟩ :=
  ⟨rfl, rfl⟩

/-- C1 (amended): on every new arrival the tick stores the new card as
`activeCard` and `lastScanned`; the `playSuccess` sound and the
`writeScanResult` last-scan file write are invoked regardless of
`launcher_disabled` (the sound muted only by the `disable_sounds` config
`ds`), and only the launch dispatch is gated: it is invoked exactly when
`launcher_disabled` is clear. -/
theorem C1_amended_disabled_arrival (ds : Bool) (st : ServiceState) (le : Nat)
    (env : PollEnv) (lerr : Bool) (nc : Card)
    (hstop : st.stopService = false)
    (hpd : pollDevice env st.activeCard = Except.ok nc)
    (hu : nc.uid ≠ "") (hnew : nc.uid ≠ st.activeCard.uid) :
    (loopTick ds st le env lerr).state.activeCard = nc
    ∧ (loopTick ds st le env lerr).state.lastScanned = nc
    ∧ (loopTick ds st le env lerr).effects.playedSuccess = !ds
    ∧ (loopTick ds st le env lerr).effects.wroteScan = true
    ∧ (loopTick ds st le env lerr).effects.launched = !st.disableLauncher :=
  let h := loopTick_stores ds st le env lerr nc hstop hpd hu hnew
  ⟨h.1, h.2.1, h.2.2.1, h.2.2.2.1, h.2.2.2.2.1⟩

/-- C1 amended witness: concrete disabled-launcher arrival (sounds enabled):
success sound invoked, scan file written, no launch, state updated. -/
theorem C1_amended_witness :
    (loopTick false ⟨Card.empty, Card.empty, false, true⟩ 7
        ⟨PollErrKind.ok, 1, "cd", CardType.Unknown, some [], [], false, 100⟩ true).state.activeCard
      = ⟨CardType.Unknown, "cd", "", 100⟩
    ∧ (loopTick false ⟨Card.empty, Card.empty, false, true⟩ 7
        ⟨PollErrKind.ok, 1, "cd", CardType.Unknown, some [], [], false, 100⟩ true).state.lastScanned
      = ⟨CardType.Unknown, "cd", "", 100⟩
    ∧ (loopTick false ⟨Card.empty, Card.empty, false, true⟩ 7
        ⟨PollErrKind.ok, 1, "cd", CardType.Unknown, some [], [], false, 100⟩ true).effects.playedSuccess
      = !false
    ∧ (loopTick false ⟨Card.empty, Card.empty, false, true⟩ 7
        ⟨PollErrKind.ok, 1, "cd", CardType.Unknown, some [], [], false, 100⟩ true).effects.wroteScan
      = true
    ∧ (loopTick false ⟨Card.empty, Card.empty, false, true⟩ 7
        ⟨PollErrKind.ok, 1, "cd", CardType.Unknown, some [], [], false, 100⟩ true).effects.launched
      = !true :=
  C1_amended_disabled_arrival false ⟨Card.empty, Card.empty, false, true⟩ 7
    ⟨PollErrKind.ok, 1, "cd", CardType.Unknown, some [], [], false, 100⟩ true
    ⟨CardType.Unknown, "cd", "", 100⟩ rfl rfl (by decide) (by decide)

/-- C4: when a successful poll re-sees the current `activeCard` UID,
`pollDevice` returns the active card unchanged and the tick produces no
effect at all (no launch, no sound, no last-scan write) and leaves
`activeCard` unchanged; moreover, in any tick whatsoever, the launch
dispatch fires only for a newly arrived non-empty UID distinct from the
active card's, with the launcher enabled. -/
theorem C4_same_uid_no_relaunch (ds : Bool) (st : ServiceState) (le : Nat)
    (env : PollEnv) (lerr : Bool)
    (hok : env.pollErr = PollErrKind.ok ∨ env.pollErr = PollErrKind.etimeout)
    (hc : 0 < env.count) (hu : env.targetUid = st.activeCard.uid)
    (hstop : st.stopService = false) :
    pollDevice env st.activeCard = Except.ok st.activeCard
    ∧ (loopTick ds st le env lerr).effects = noEffects
    ∧ (loopTick ds st le env lerr).state.activeCard = st.activeCard
    ∧ (loopTick ds st le env lerr).out = TickOut.ended
    ∧ (∀ (ds2 : Bool) (st2 : ServiceState) (le2 : Nat) (env2 : PollEnv) (lerr2 : Bool),
        (loopTick ds2 st2 le2 env2 lerr2).effects.launched = true →
        env2.targetUid ≠ "" ∧ env2.targetUid ≠ st2.activeCard.uid
        ∧ st2.disableLauncher = false) := by
  have hpd := pollDevice_sameUid env st.activeCard hok hc hu
  refine ⟨hpd, ?_, ?_, ?_, ?_⟩
  · simp [loopTick, hstop, hpd, ServiceState.setActiveCard]
  · simp [loopTick, hstop, hpd, ServiceState.setActiveCard]
  · simp [loopTick, hstop, hpd]
  · intro ds2 st2 le2 env2 lerr2 h2
    obtain ⟨_, hdis2, _, hne2, hnew2⟩ := loopTick_launched ds2 st2 le2 env2 lerr2 h2
    exact ⟨hne2, hnew2, hdis2⟩

/-- C4 witness: the active card `"aa"` re-seen at t = 400 ms produces no
effect and keeps the state. -/
theorem C4_witness :
    pollDevice ⟨PollErrKind.ok, 1, "aa", CardType.NTAG, some [], [], false, 400⟩
        (ServiceState.activeCard ⟨⟨CardType.NTAG, "aa", "x", 0⟩, ⟨CardType.NTAG, "aa", "x", 0⟩, false, false⟩)
      = Except.ok ⟨CardType.NTAG, "aa", "x", 0⟩
    ∧ (loopTick false ⟨⟨CardType.NTAG, "aa", "x", 0⟩, ⟨CardType.NTAG, "aa", "x", 0⟩, false, false⟩ 0
        ⟨PollErrKind.ok, 1, "aa", CardType.NTAG, some [], [], false, 400⟩ false).effects = noEffects
    ∧ (loopTick false ⟨⟨CardType.NTAG, "aa", "x", 0⟩, ⟨CardType.NTAG, "aa", "x", 0⟩, false, false⟩ 0
        ⟨PollErrKind.ok, 1, "aa", CardType.NTAG, some [], [], false, 400⟩ false).state.activeCard
      = ⟨CardType.NTAG, "aa", "x", 0⟩
    ∧ (loopTick false ⟨⟨CardType.NTAG, "aa", "x", 0⟩, ⟨CardType.NTAG, "aa", "x", 0⟩, false, false⟩ 0
        ⟨PollErrKind.ok, 1, "aa", CardType.NTAG, some [], [], false, 400⟩ false).out = TickOut.ended
    ∧ (∀ (ds2 : Bool) (st2 : ServiceState) (le2 : Nat) (env2 : PollEnv) (lerr2 : Bool),
        (loopTick ds2 st2 le2 env2 lerr2).effects.launched = true →
        env2.targetUid ≠ "" ∧ env2.targetUid ≠ st2.activeCard.uid
        ∧ st2.disableLauncher = false) :=
  C4_same_uid_no_relaunch false
    ⟨⟨CardType.NTAG, "aa", "x", 0⟩, ⟨CardType.NTAG, "aa", "x", 0⟩, false, false⟩ 0
    ⟨PollErrKind.ok, 1, "aa", CardType.NTAG, some [], [], false, 400⟩ false
    (Or.inl rfl) (by decide) rfl rfl

/-- C5 counterexample: an arrival of an NTAG whose NDEF read fails makes
`pollDevice` return an error — not a new `Card` with empty text — so the
tag is not treated as an arrival. -/
theorem C5_counterexample :
    pollDevice ⟨PollErrKind.ok, 1, "aa", CardType.NTAG, none, [], false, 50⟩ Card.empty
      = Except.error PErr.readErr := rfl

/-- C5 (amended): an arrival of unknown card type, a Mifare arrival whose
read failed or whose bytes decode to no NDEF text, or an NTAG arrival whose
read succeeded but whose bytes decode to no NDEF text, all yield a new
`Card` with empty text, and such a card with a non-empty UID is stored as
`activeCard` and `lastScanned` by the tick; an NTAG arrival whose read
fails, however, is returned as an error and is not treated as an arrival. -/
theorem C5_amended_decode_empty_arrival (env : PollEnv) (c : Card)
    (hok : env.pollErr = PollErrKind.ok ∨ env.pollErr = PollErrKind.etimeout)
    (hc : 0 < env.count) (hnew : env.targetUid ≠ c.uid) :
    (env.targetType = CardType.Unknown →
      pollDevice env c = Except.ok ⟨CardType.Unknown, env.targetUid, "", env.now⟩)
    ∧ (env.targetType = CardType.Mifare → ParseRecordText env.mifareBytes = "" →
      pollDevice env c = Except.ok ⟨CardType.Mifare, env.targetUid, "", env.now⟩)
    ∧ (∀ bs, env.targetType = CardType.NTAG → env.ntagRead = some bs →
      ParseRecordText bs = "" →
      pollDevice env c = Except.ok ⟨CardType.NTAG, env.targetUid, "", env.now⟩)
    ∧ (env.targetType = CardType.NTAG → env.ntagRead = none →
      pollDevice env c = Except.error PErr.readErr)
    ∧ (∀ (ds : Bool) (st : ServiceState) (le : Nat) (lerr : Bool) (nc : Card),
        st.activeCard = c → st.stopService = false →
        pollDevice env c = Except.ok nc → nc.uid ≠ "" → nc.uid ≠ c.uid →
        (loopTick ds st le env lerr).state.activeCard = nc
        ∧ (loopTick ds st le env lerr).state.lastScanned = nc) := by
  have h1 := pollDevice_not_eio hok
  have h2 := pollDevice_not_other hok
  have h3 : ¬env.count ≤ 0 := by omega
  refine ⟨?_, ?_, ?_, ?_, ?_⟩
  · intro htt
    unfold pollDevice
    rw [if_neg h1, if_neg h2, if_neg h3, if_neg hnew]
    simp [htt]
    rfl
  · intro htt hparse
    unfold pollDevice
    rw [if_neg h1, if_neg h2, if_neg h3, if_neg hnew]
    simp [htt, hparse]
  · intro bs htt hnr hparse
    unfold pollDevice
    rw [if_neg h1, if_neg h2, if_neg h3, if_neg hnew]
    simp [htt, hnr, hparse]
  · intro htt hnr
    unfold pollDevice
    rw [if_neg h1, if_neg h2, if_neg h3, if_neg hnew]
    simp [htt, hnr]
  · intro ds st le lerr nc hac hstop hpd hu hnewu
    rw [← hac] at hpd hnewu
    have h := loopTick_stores ds st le env lerr nc hstop hpd hu hnewu
    exact ⟨h.1, h.2.1⟩

/-- C5 amended witness: an unknown-type arrival with UID `"ee"` becomes an
empty-text card and is stored by the tick. -/
theorem C5_amended_witness :
    (pollDevice ⟨PollErrKind.ok, 1, "ee", CardType.Unknown, some [], [], false, 30⟩ Card.empty
      = Except.ok ⟨CardType.Unknown, "ee", "", 30⟩)
    ∧ ((loopTick false ⟨Card.empty, Card.empty, false, false⟩ 0
        ⟨PollErrKind.ok, 1, "ee", CardType.Unknown, some [], [], false, 30⟩ false).state.activeCard
      = ⟨CardType.Unknown, "ee", "", 30⟩) := by
  have h := C5_amended_decode_empty_arrival
    ⟨PollErrKind.ok, 1, "ee", CardType.Unknown, some [], [], false, 30⟩ Card.empty
    (Or.inl rfl) (by decide) (by decide)
  have hpd := h.1 rfl
  refine ⟨hpd, ?_⟩
  exact (h.2.2.2.2 false ⟨Card.empty, Card.empty, false, false⟩ 0 false
    ⟨CardType.Unknown, "ee", "", 30⟩ rfl rfl hpd (by decide) (by decide)).1

/-- A tick breaks out of the loop only when the stop flag was set. -/
theorem loopTick_stopped (ds : Bool) (st : ServiceState) (le : Nat) (env : PollEnv)
    (lerr : Bool)
    (h : (loopTick ds st le env lerr).out = TickOut.stopped) :
    st.stopService = true := by
  by_cases hstop : st.stopService
  · exact hstop
  cases hpd : pollDevice env st.activeCard with
  | error e =>
    by_cases he : e = PErr.eio <;> simp [loopTick, hstop, hpd, he] at h
  | ok nc =>
    by_cases hcond : nc.uid = "" ∨ st.activeCard.uid = nc.uid
    · simp [loopTick, hstop, hpd, hcond] at h
    by_cases hdis : (st.setActiveCard nc).disableLauncher
    · simp [loopTick, hstop, hpd, hcond, hdis] at h
    by_cases hl : lerr <;> simp [loopTick, hstop, hpd, hcond, hdis, hl] at h

/-- A fatal EIO poll error in a non-stopping tick jumps to `reconnect`. -/
theorem loopTick_eio (ds : Bool) (st : ServiceState) (le : Nat) (env : PollEnv)
    (lerr : Bool)
    (hstop : st.stopService = false)
    (hpd : pollDevice env st.activeCard = Except.error PErr.eio) :
    (loopTick ds st le env lerr).out = TickOut.reconnect := by
  simp [loopTick, hstop, hpd]

/-- C2 counterexample: open succeeds, an EIO poll error sends the goroutine
back to `reconnect:`, and the failed re-open makes it return — the loop
exits for good although the stop flag was never set. -/
theorem C2_counterexample :
    (runLoop false ⟨LoopPhase.connecting, ⟨Card.empty, Card.empty, false, false⟩, 0⟩
        [LoopEnv.openStep true true,
          LoopEnv.tickStep ⟨PollErrKind.eio, 0, "", CardType.Unknown, some [], [], false, 2000⟩ false,
          LoopEnv.openStep false true]).phase = LoopPhase.exited
    ∧ (runLoop false ⟨LoopPhase.connecting, ⟨Card.empty, Card.empty, false, false⟩, 0⟩
        [LoopEnv.openStep true true,
          LoopEnv.tickStep ⟨PollErrKind.eio, 0, "", CardType.Unknown, some [], [], false, 2000⟩ false,
          LoopEnv.openStep false true]).st.stopService = false :=
  ⟨rfl, rfl⟩

/-- C2 (amended): the poll goroutine leaves its loop only when the stop flag
is set or when a device open / initiator init step fails; after an EIO poll
error it jumps to `reconnect:` and resumes polling provided the re-open and
init succeed. -/
theorem C2_amended_exit_conditions (ds : Bool) (m : LoopMachine) (e : LoopEnv) :
    ((loopStep ds m e).phase = LoopPhase.exited →
      m.phase = LoopPhase.exited ∨ m.st.stopService = true ∨ isFailedOpen e = true)
    ∧ (∀ (env : PollEnv) (lerr : Bool), m.phase = LoopPhase.polling →
        m.st.stopService = false → e = LoopEnv.tickStep env lerr →
        pollDevice env m.st.activeCard = Except.error PErr.eio →
        (loopStep ds m e).phase = LoopPhase.connecting)
    ∧ (m.phase = LoopPhase.connecting → e = LoopEnv.openStep true true →
        (loopStep ds m e).phase = LoopPhase.polling) := by
  refine ⟨?_, ?_, ?_⟩
  · intro hex
    cases hph : m.phase with
    | connecting =>
      cases e with
      | openStep a b =>
        cases a <;> cases b
        · exact Or.inr (Or.inr rfl)
        · exact Or.inr (Or.inr rfl)
        · exact Or.inr (Or.inr rfl)
        · simp [loopStep, hph] at hex
      | tickStep env lerr => simp [loopStep, hph] at hex
    | polling =>
      cases e with
      | openStep a b => simp [loopStep, hph] at hex
      | tickStep env lerr =>
        cases hout : (loopTick ds m.st m.lastError env lerr).out with
        | stopped =>
          exact Or.inr (Or.inl (loopTick_stopped ds m.st m.lastError env lerr hout))
        | reconnect => simp [loopStep, hph, hout] at hex
        | ended => simp [loopStep, hph, hout] at hex
    | exited => exact Or.inl rfl
  · intro env lerr hph hstop he hpd
    subst he
    have hout := loopTick_eio ds m.st m.lastError env lerr hstop hpd
    simp [loopStep, hph, hout]
  · intro hph he
    subst he
    simp [loopStep, hph]

/-- C2 amended witness: from `connecting`, a successful open and init step
re-enters the polling loop. -/
theorem C2_amended_witness :
    (loopStep false ⟨LoopPhase.connecting, ⟨Card.empty, Card.empty, false, false⟩, 0⟩
        (LoopEnv.openStep true true)).phase = LoopPhase.polling :=
  (C2_amended_exit_conditions false
    ⟨LoopPhase.connecting, ⟨Card.empty, Card.empty, false, false⟩, 0⟩
    (LoopEnv.openStep true true)).2.2 rfl rfl

/-- C6: a `status` request is answered with
`"<unix_ts>,<uid>,<launcher_enabled_bool>,<text>"` built from `lastScanned`
when a card has been scanned, with `"0,,<bool>,"` otherwise, the boolean
field being the negation of `launcher_disabled`; `disable`, `enable` and
unknown commands are answered with the empty payload. -/
theorem C6_status_reply (st : ServiceState) (raw : String) :
    (trimSpace raw = "status" → st.lastScanned.uid ≠ "" →
      (handleConn st raw).2
        = toString (st.lastScanned.scanTime / 1000) ++ "," ++ st.lastScanned.uid ++ ","
          ++ (if st.disableLauncher then "false" else "true") ++ "," ++ st.lastScanned.text)
    ∧ (trimSpace raw = "status" → st.lastScanned.uid = "" →
      (handleConn st raw).2 = "0,," ++ (if st.disableLauncher then "false" else "true") ++ ",")
    ∧ (trimSpace raw = "disable" → (handleConn st raw).2 = "")
    ∧ (trimSpace raw = "enable" → (handleConn st raw).2 = "")
    ∧ (trimSpace raw ≠ "status" → trimSpace raw ≠ "disable" → trimSpace raw ≠ "enable" →
      (handleConn st raw).2 = "") := by
  refine ⟨?_, ?_, ?_, ?_, ?_⟩
  · intro hcmd hu
    simp [handleConn, hcmd, hu]
  · intro hcmd hu
    simp [handleConn, hcmd, hu]
  · intro hcmd
    simp [handleConn, hcmd]
  · intro hcmd
    simp [handleConn, hcmd]
  · intro h1 h2 h3
    simp [handleConn, h1, h2, h3]

/-- C6 witness: a scanned card `"aabb"` at 5000 ms with the launcher
enabled yields `"5,aabb,true,hello"`; spacing around the command is
trimmed. -/
theorem C6_witness :
    (handleConn ⟨Card.empty, ⟨CardType.NTAG, "aabb", "hello", 5000⟩, false, false⟩
      " status\n").2 = "5,aabb,true,hello" := by
  have h := (C6_status_reply ⟨Card.empty, ⟨CardType.NTAG, "aabb", "hello", 5000⟩, false, false⟩
    " status\n").1 (by decide) (by decide)
  exact h.trans (by decide)

/-- C7 counterexample: the service is running and never observed stopped
within the 15 polls (stop timeout); `handleWriteCommand` exits 1 without
invoking the restart closure, although the service was running when write
mode began. -/
theorem C7_counterexample :
    handleWriteCommand ⟨true, true, false, true, true, 1, CardType.NTAG, true, true⟩
      = (1, false) :=
  rfl

/-- C7 (amended): once the stop phase has completed (service not running, or
stopped successfully and observed stopped), every exit path — success or
failure — invokes the restart closure first (which starts the service
exactly when it was running at entry), and the exit code is 0 exactly when
the tag write succeeded (device opened, poll succeeded, a card was found,
supported card type, write succeeded) and, if the service was running at
entry, the restart's `svc.Start()` also succeeded — a failed restart inside
the closure exits 1 even after a successful write; every failure exits 1.
The stop-error and stop-timeout paths, however, exit 1 without invoking the
restart closure. -/
theorem C7_amended_exit_restart (env : WriteEnv)
    (hstop : env.serviceRunning = false ∨ (env.stopOk = true ∧ env.stopObserved = true)) :
    (handleWriteCommand env).2 = true
    ∧ ((handleWriteCommand env).1 = 0 ↔
        env.openOk = true ∧ env.pollOk = true ∧ env.count ≠ 0
        ∧ (env.targetType = CardType.Mifare ∨ env.targetType = CardType.NTAG)
        ∧ env.writeOk = true ∧ (env.serviceRunning = true → env.startOk = true))
    ∧ ((handleWriteCommand env).1 = 0 ∨ (handleWriteCommand env).1 = 1)
    ∧ (env.openOk = true → env.pollOk = true → env.count ≠ 0 →
        (env.targetType = CardType.Mifare ∨ env.targetType = CardType.NTAG) →
        env.writeOk = true → env.serviceRunning = true → env.startOk = false →
        handleWriteCommand env = (1, true)) := by
  have h1 : (env.serviceRunning && !env.stopOk) = false := by
    rcases hstop with h | ⟨h, _⟩ <;> simp [h]
  have h2 : (env.serviceRunning && !env.stopObserved) = false := by
    rcases hstop with h | ⟨_, h⟩ <;> simp [h]
  unfold handleWriteCommand restartExit
  rw [h1, h2]
  by_cases ho : env.openOk <;> by_cases hp : env.pollOk <;>
    by_cases hcn : env.count = 0 <;> cases htt : env.targetType <;>
      by_cases hw : env.writeOk <;> by_cases hsr : env.serviceRunning <;>
        by_cases hst : env.startOk <;>
          simp [ho, hp, hcn, htt, hw, hsr, hst]

/-- C7 amended witness: a successful NTAG write whose restart also succeeds
invokes the restart closure and exits 0. -/
theorem C7_witness :
    (handleWriteCommand ⟨true, true, true, true, true, 1, CardType.NTAG, true, true⟩).2 = true
    ∧ (handleWriteCommand ⟨true, true, true, true, true, 1, CardType.NTAG, true, true⟩).1
      = 0 := by
  have h := C7_amended_exit_restart
    ⟨true, true, true, true, true, 1, CardType.NTAG, true, true⟩ (Or.inr ⟨rfl, rfl⟩)
  exact ⟨h.1, h.2.1.mpr (by decide)⟩

end Nfc

namespace Games

/-- C9: whenever the decoded path maps to no system (`FolderToSystems`
returns the empty slice), the `LaunchGame` handler's error-logging statement
evaluates `syss[0].Id`, an out-of-bounds index on the empty slice, so the
handler panics instead of completing its error reply. -/
theorem C9_launch_game_oob (folderToSystems : String → List GSystem)
    (launch : GSystem → String → Except String Unit) (path : String)
    (hempty : folderToSystems path = []) :
    LaunchGame folderToSystems launch (some path) = LaunchGameResult.panicOutOfRange := by
  simp [LaunchGame, hempty]

/-- C9 witness: a request whose path maps to no system panics. -/
theorem C9_witness :
    LaunchGame (fun _ => []) (fun _ _ => Except.ok ()) (some "/media/fat/unknown.xyz")
      = LaunchGameResult.panicOutOfRange :=
  C9_launch_game_oob (fun _ => []) (fun _ _ => Except.ok ()) "/media/fat/unknown.xyz" rfl

end Games
